import Mathlib

/-!
Verification development for the heuristic tone-analysis engine of the
Local Writing Assistant repository (`server/services/tone.py`) together
with the batch loop of its HTTP router (`server/routers/tone.py`).

Modelling conventions:
* Python `float` arithmetic is modelled by exact rationals (`ℚ`); every
  constant in the engine (0.3, 0.4, 15, 8, 50, ...) is used only in
  order comparisons with comfortable margins, so the real-number
  semantics agrees with the machine one on all facts proved here.
* Python regular-expression scans are modelled by explicit scanners over
  `List Char`: `\w+` word extraction, `!+`, `\?+`, `\.{3,}` and the
  caps pattern all reduce to maximal runs of a character class, computed
  by `tokensBy`; the emoticon alternation gets a dedicated scanner.
* The regex class `\w` and `str.lower` are modelled on the ASCII range
  (alphanumeric or underscore; `A`-`Z` mapped down), matching the
  engine's English-only lexicons.
* Fields named `*_ratio` in the Python feature dict are embedded as the
  `*_r` fields of `FeatureVector`.
-/

set_option maxRecDepth 100000

namespace Tone

/-- Sentiment categories (`Sentiment` enum in `tone.py`). -/
inductive Sentiment where
  | positive
  | neutral
  | negative
  deriving DecidableEq

/-- Formality categories (`Formality` enum in `tone.py`). -/
inductive Formality where
  | formal
  | neutral
  | casual
  deriving DecidableEq

/-- Characters matched by the regex class `\w` (ASCII model). -/
def wordChar (c : Char) : Bool := c.isAlphanum || c == '_'

/-- ASCII lowercasing, modelling `str.lower`. -/
def lowerChar (c : Char) : Char :=
  match c with
  | 'A' => 'a'
  | 'B' => 'b'
  | 'C' => 'c'
  | 'D' => 'd'
  | 'E' => 'e'
  | 'F' => 'f'
  | 'G' => 'g'
  | 'H' => 'h'
  | 'I' => 'i'
  | 'J' => 'j'
  | 'K' => 'k'
  | 'L' => 'l'
  | 'M' => 'm'
  | 'N' => 'n'
  | 'O' => 'o'
  | 'P' => 'p'
  | 'Q' => 'q'
  | 'R' => 'r'
  | 'S' => 's'
  | 'T' => 't'
  | 'U' => 'u'
  | 'V' => 'v'
  | 'W' => 'w'
  | 'X' => 'x'
  | 'Y' => 'y'
  | 'Z' => 'z'
  | c => c

/-- Does the list start with a character satisfying `p`? -/
def headIs (p : Char → Bool) : List Char → Bool
  | [] => false
  | c :: _ => p c

/-- Prepend character `c` to the token list `ts`: when `merge` is set
(the next character continues the same run) `c` joins the first token,
otherwise it opens a new token. -/
def consTok (c : Char) (merge : Bool) (ts : List (List Char)) : List (List Char) :=
  if merge then
    match ts with
    | t :: ts2 => (c :: t) :: ts2
    | [] => [[c]]
  else [c] :: ts

/-- Maximal runs of characters satisfying `p`.  This models both
`re.findall` for patterns of the shape "one or more characters of a
class" (each maximal run is one match) and `str.split`-style
separation (runs of non-separator characters). -/
def tokensBy (p : Char → Bool) : List Char → List (List Char)
  | [] => []
  | c :: rest =>
    if p c then consTok c (headIs p rest) (tokensBy p rest)
    else tokensBy p rest

/-- Sentence-delimiter characters of the split pattern `[.!?]+`. -/
def sentSep (c : Char) : Bool := c == '.' || c == '!' || c == '?'

/-- Characters that are kept inside a sentence segment. -/
def sentChar (c : Char) : Bool := !sentSep c

/-- Non-whitespace characters (`str.split` token characters). -/
def notWS (c : Char) : Bool := !c.isWhitespace

/-- Tokens kept by the sentence filter: `s.strip()` is non-empty. -/
def hasNonWS (t : List Char) : Bool := t.any notWS

/-- First character class of the emoticon pattern, `[:;=]`. -/
def emoSet1 (c : Char) : Bool := c == ':' || c == ';' || c == '='

/-- Second character class of the emoticon pattern, `[)D(P\\/]`. -/
def emoSet2 (c : Char) : Bool :=
  c == ')' || c == 'D' || c == '(' || c == 'P' || c == '\\' || c == '/'

/-- Length of the match of `[:;=]-?[)D(P\\/]|[)D(P\\/]-?[:;=]` at the
head of the list (0 when there is no match there). -/
def emoLen (l : List Char) : ℕ :=
  match l with
  | a :: '-' :: b :: _ =>
    if emoSet1 a && emoSet2 b then 3
    else if emoSet2 a && emoSet1 b then 3
    else 0
  | a :: b :: _ =>
    if emoSet1 a && emoSet2 b then 2
    else if emoSet2 a && emoSet1 b then 2
    else 0
  | _ => 0

/-- Number of non-overlapping emoticon matches, scanning left to right
as `re.findall` does. -/
def emoCount : List Char → ℕ
  | [] => 0
  | [_] => 0
  | a :: b :: rest =>
    match emoLen (a :: b :: rest) with
    | 2 => 1 + emoCount rest
    | 3 =>
      match rest with
      | [] => 1
      | _ :: rest2 => 1 + emoCount rest2
    | _ => emoCount (b :: rest)

/-- Positive-sentiment lexicon (`self.positive_words`). -/
def positive_words : List (List Char) :=
  (["excellent", "great", "amazing", "wonderful", "fantastic", "awesome",
    "love", "like", "enjoy", "appreciate", "pleased", "happy", "glad",
    "good", "nice", "perfect", "brilliant", "outstanding", "superb",
    "delighted", "thrilled", "excited", "satisfied", "impressed",
    "thank", "thanks", "grateful", "blessing", "fortunate", "lucky"] :
    List String).map String.data

/-- Negative-sentiment lexicon (`self.negative_words`). -/
def negative_words : List (List Char) :=
  (["terrible", "awful", "horrible", "bad", "worst", "hate", "dislike",
    "disappointed", "frustrated", "angry", "annoyed", "upset", "sad",
    "wrong", "problem", "issue", "error", "mistake", "fail", "failure",
    "difficult", "hard", "challenging", "struggle", "trouble", "worry",
    "concerned", "unfortunately", "regret", "sorry", "apologize"] :
    List String).map String.data

/-- Formal-register lexicon (`self.formal_words`). -/
def formal_words : List (List Char) :=
  (["furthermore", "moreover", "consequently", "therefore", "nevertheless",
    "notwithstanding", "accordingly", "subsequently", "henceforth",
    "pursuant", "regarding", "concerning", "pertaining", "whereby",
    "heretofore", "aforementioned", "undersigned", "herewith",
    "establish", "facilitate", "implement", "utilize", "demonstrate",
    "indicate", "constitute", "represent", "acknowledge", "endeavor"] :
    List String).map String.data

/-- Casual-register lexicon (`self.casual_words`). -/
def casual_words : List (List Char) :=
  (["yeah", "yep", "nope", "gonna", "wanna", "gotta", "kinda", "sorta",
    "stuff", "thing", "things", "guys", "dude", "awesome", "cool",
    "super", "really", "pretty", "quite", "totally", "definitely",
    "basically", "literally", "actually", "obviously", "seriously",
    "honestly", "frankly", "btw", "fyi", "imho", "tbh"] :
    List String).map String.data

/-- Contraction lexicon (`self.contractions`), kept with the exact
mixed-case surface forms of the source. -/
def contractions : List (List Char) :=
  (["won't", "can't", "don't", "didn't", "hasn't", "haven't", "isn't",
    "aren't", "wasn't", "weren't", "shouldn't", "wouldn't", "couldn't",
    "I'm", "you're", "he's", "she's", "it's", "we're", "they're",
    "I've", "you've", "we've", "they've", "I'd", "you'd", "he'd",
    "she'd", "we'd", "they'd", "I'll", "you'll", "he'll", "she'll",
    "we'll", "they'll", "that's", "what's", "who's", "where's"] :
    List String).map String.data

/-- Feature vector extracted from one text (`_extract_features`).
Counts are naturals; derived quotients are exact rationals.  The
Python dict keys `positive_ratio`, ..., `exclamation_ratio` are the
fields `positive_r`, ..., `exclamation_r`. -/
structure FeatureVector where
  word_count : ℕ
  char_count : ℕ
  sentence_count : ℕ
  avg_word_length : ℚ
  exclamation_count : ℕ
  question_count : ℕ
  caps_words : ℕ
  ellipsis_count : ℕ
  emoticon_count : ℕ
  positive_word_count : ℕ
  negative_word_count : ℕ
  formal_word_count : ℕ
  casual_word_count : ℕ
  contraction_count : ℕ
  positive_r : ℚ
  negative_r : ℚ
  formal_r : ℚ
  casual_r : ℚ
  contraction_r : ℚ
  caps_r : ℚ
  exclamation_r : ℚ
  deriving DecidableEq

/-- Word tokens of the lowercased text: `self.word_pattern.findall(text_lower)`. -/
def words_of (l : List Char) : List (List Char) :=
  tokensBy wordChar (l.map lowerChar)

/-- Sentence count: non-blank segments of `re.split(r'[.!?]+', text)`. -/
def sentence_count_of (l : List Char) : ℕ :=
  ((tokensBy sentChar l).filter hasNonWS).length

/-- Number of maximal runs of `!` (`self.exclamation_pattern.findall`). -/
def exclamation_count_of (l : List Char) : ℕ :=
  (tokensBy (fun c => c == '!') l).length

/-- Number of maximal runs of `?` (`self.question_pattern.findall`). -/
def question_count_of (l : List Char) : ℕ :=
  (tokensBy (fun c => c == '?') l).length

/-- One word token is a caps word when the whole maximal `\w`-run has
length at least two and consists of `A`-`Z` only; this is exactly when
`\b[A-Z]{2,}\b` matches it. -/
def capsTok (t : List Char) : Bool :=
  decide (2 ≤ t.length) && t.all (fun c => decide ('A' ≤ c ∧ c ≤ 'Z'))

/-- Count of caps words (`self.caps_pattern.findall(text)`). -/
def caps_words_of (l : List Char) : ℕ :=
  (tokensBy wordChar l).countP capsTok

/-- Count of `\.{3,}` matches: maximal runs of `.` of length ≥ 3. -/
def ellipsis_count_of (l : List Char) : ℕ :=
  (tokensBy (fun c => c == '.') l).countP (fun t => decide (3 ≤ t.length))

/-- Membership test `w.lower() in self.contractions` for one
whitespace-split token. -/
def is_contraction (t : List Char) : Bool :=
  contractions.contains (t.map lowerChar)

/-- Count of whitespace-split tokens whose lowercase form is a stored
contraction (`sum(1 for w in text.split() if w.lower() in self.contractions)`). -/
def contraction_count_of (l : List Char) : ℕ :=
  (tokensBy notWS l).countP is_contraction

/-- Feature extraction (`_extract_features`). -/
def extract_features (l : List Char) : FeatureVector :=
  let ws := words_of l
  let wc := ws.length
  let sc := sentence_count_of l
  let pw := ws.countP (fun w => positive_words.contains w)
  let nw := ws.countP (fun w => negative_words.contains w)
  let fw := ws.countP (fun w => formal_words.contains w)
  let cw := ws.countP (fun w => casual_words.contains w)
  let ct := contraction_count_of l
  let cap := caps_words_of l
  let wd : ℚ := ((max wc 1 : ℕ) : ℚ)
  let sd : ℚ := ((max sc 1 : ℕ) : ℚ)
  { word_count := wc
    char_count := l.length
    sentence_count := sc
    avg_word_length := (((ws.map List.length).sum : ℕ) : ℚ) / wd
    exclamation_count := exclamation_count_of l
    question_count := question_count_of l
    caps_words := cap
    ellipsis_count := ellipsis_count_of l
    emoticon_count := emoCount l
    positive_word_count := pw
    negative_word_count := nw
    formal_word_count := fw
    casual_word_count := cw
    contraction_count := ct
    positive_r := (pw : ℚ) / wd
    negative_r := (nw : ℚ) / wd
    formal_r := (fw : ℚ) / wd
    casual_r := (cw : ℚ) / wd
    contraction_r := (ct : ℚ) / wd
    caps_r := (cap : ℚ) / wd
    exclamation_r := ((exclamation_count_of l : ℕ) : ℚ) / sd }

/-- Base sentiment scores from the lexicon hit quotients
(`positive_score`, `negative_score` before any adjustment). -/
def sentiment_base (fv : FeatureVector) : ℚ × ℚ :=
  (fv.positive_r * 2, fv.negative_r * 2)

/-- Exclamation amplification step of `_analyze_sentiment`. -/
def exclamation_step (fv : FeatureVector) (pn : ℚ × ℚ) : ℚ × ℚ :=
  if 0 < fv.exclamation_count then
    if pn.2 < pn.1 then (pn.1 + fv.exclamation_r * 0.5, pn.2)
    else if pn.1 < pn.2 then (pn.1, pn.2 + fv.exclamation_r * 0.5)
    else pn
  else pn

/-- Emoticon adjustment step of `_analyze_sentiment`. -/
def emoticon_step (fv : FeatureVector) (pn : ℚ × ℚ) : ℚ × ℚ :=
  if 0 < fv.emoticon_count then (pn.1 + 0.2, pn.2) else pn

/-- Caps amplification step of `_analyze_sentiment` (the `else` arm
gives the 0.3 to the negative side, so a tie favors negative). -/
def caps_step (fv : FeatureVector) (pn : ℚ × ℚ) : ℚ × ℚ :=
  if 0.1 < fv.caps_r then
    if pn.2 < pn.1 then (pn.1 + 0.3, pn.2) else (pn.1, pn.2 + 0.3)
  else pn

/-- Final positive/negative running scores of `_analyze_sentiment`. -/
def sentiment_scores (fv : FeatureVector) : ℚ × ℚ :=
  caps_step fv (emoticon_step fv (exclamation_step fv (sentiment_base fv)))

/-- Net sentiment score (`net_score = positive_score - negative_score`). -/
def sentiment_net (fv : FeatureVector) : ℚ :=
  (sentiment_scores fv).1 - (sentiment_scores fv).2

/-- Sentiment category from the net score. -/
def sentiment_label (fv : FeatureVector) : Sentiment :=
  if 0.2 < sentiment_net fv then .positive
  else if sentiment_net fv < -0.2 then .negative
  else .neutral

/-- Formality running scores of `_analyze_formality` before the
sentence-length adjustment. -/
def formality_pre (fv : FeatureVector) : ℚ × ℚ :=
  let f0 : ℚ := fv.formal_r * 3
  let c0 : ℚ := fv.casual_r * 2 + fv.contraction_r * 2
  let c1 : ℚ := if 0.5 < fv.exclamation_r then c0 + 0.5 else c0
  let c2 : ℚ := if 0 < fv.ellipsis_count then c1 + 0.3 else c1
  if 5.5 < fv.avg_word_length then (f0 + 0.5, c2)
  else if fv.avg_word_length < 4 then (f0, c2 + 0.3)
  else (f0, c2)

/-- Sentence-length adjustment of `_analyze_formality`: guarded by
`word_count > 0 and sentence_count > 0` in the source. -/
def sentence_length_step (fv : FeatureVector) (fc : ℚ × ℚ) : ℚ × ℚ :=
  if 0 < fv.word_count ∧ 0 < fv.sentence_count then
    let asl : ℚ := (fv.word_count : ℚ) / (fv.sentence_count : ℚ)
    if 15 < asl then (fc.1 + 0.4, fc.2)
    else if asl < 8 then (fc.1, fc.2 + 0.3)
    else fc
  else fc

/-- Modelled from the spec: the sentence-length adjustment the way the
claim states it, gated only on `sentence_count > 0`.  Kept separate so
it can be compared with `sentence_length_step`, the one the source
actually performs. -/
def sentence_length_step_claim (fv : FeatureVector) (fc : ℚ × ℚ) : ℚ × ℚ :=
  if 0 < fv.sentence_count then
    let asl : ℚ := (fv.word_count : ℚ) / (fv.sentence_count : ℚ)
    if 15 < asl then (fc.1 + 0.4, fc.2)
    else if asl < 8 then (fc.1, fc.2 + 0.3)
    else fc
  else fc

/-- Final formal/casual running scores of `_analyze_formality`. -/
def formality_scores (fv : FeatureVector) : ℚ × ℚ :=
  sentence_length_step fv (formality_pre fv)

/-- Net formality score (`net_score = formal_score - casual_score`). -/
def formality_net (fv : FeatureVector) : ℚ :=
  (formality_scores fv).1 - (formality_scores fv).2

/-- Formality category from the net score. -/
def formality_label (fv : FeatureVector) : Formality :=
  if 0.5 < formality_net fv then .formal
  else if formality_net fv < -0.5 then .casual
  else .neutral

/-- Confidence estimate (`_calculate_confidence`). -/
def calculate_confidence (fv : FeatureVector) (s f : ℚ) : ℚ :=
  let length_confidence := min ((fv.word_count : ℚ) / 50) 1
  let feature_confidence := (abs s + abs f) / 2
  min (max (length_confidence * 0.6 + feature_confidence * 0.4) 0.1) 1

/-- Analysis result (`ToneAnalysis` dataclass); the two entries of the
`scores` dict are the two score fields, and `features := none` models
the empty feature dict of the blank-input answer. -/
structure ToneAnalysis where
  sentiment : Sentiment
  formality : Formality
  sentiment_score : ℚ
  formality_score : ℚ
  confidence : ℚ
  features : Option FeatureVector
  deriving DecidableEq

/-- Blank test `not text.strip()`: every character is whitespace. -/
def isBlank (l : List Char) : Bool := l.all Char.isWhitespace

/-- Whole-text analysis (`analyze_tone` in `ToneAnalysisService`). -/
def analyze_tone (text : String) : ToneAnalysis :=
  if isBlank text.data then
    { sentiment := .neutral, formality := .neutral, sentiment_score := 0,
      formality_score := 0, confidence := 0, features := none }
  else
    let fv := extract_features text.data
    let s := sentiment_net fv
    let f := formality_net fv
    { sentiment := sentiment_label fv, formality := formality_label fv,
      sentiment_score := s, formality_score := f,
      confidence := calculate_confidence fv s f, features := some fv }

attribute [local semireducible] Rat.add Rat.mul Rat.inv Rat.sub Rat.ofScientific

/-- Guarded rational division: `none` exactly on a zero denominator.
Used by the checked variants below to show that no division in the
engine can ever divide by zero. -/
def qdiv? (a b : ℚ) : Option ℚ := if b = 0 then none else some (a / b)

/-- Checked feature extraction: as `extract_features`, but every
division goes through `qdiv?`. -/
def extract_features? (l : List Char) : Option FeatureVector := do
  let ws := words_of l
  let wc := ws.length
  let sc := sentence_count_of l
  let pw := ws.countP (fun w => positive_words.contains w)
  let nw := ws.countP (fun w => negative_words.contains w)
  let fw := ws.countP (fun w => formal_words.contains w)
  let cw := ws.countP (fun w => casual_words.contains w)
  let ct := contraction_count_of l
  let cap := caps_words_of l
  let wd : ℚ := ((max wc 1 : ℕ) : ℚ)
  let sd : ℚ := ((max sc 1 : ℕ) : ℚ)
  let awl ← qdiv? (((ws.map List.length).sum : ℕ) : ℚ) wd
  let pr ← qdiv? (pw : ℚ) wd
  let nr ← qdiv? (nw : ℚ) wd
  let fr ← qdiv? (fw : ℚ) wd
  let cr ← qdiv? (cw : ℚ) wd
  let ctr ← qdiv? (ct : ℚ) wd
  let capr ← qdiv? (cap : ℚ) wd
  let er ← qdiv? ((exclamation_count_of l : ℕ) : ℚ) sd
  pure
    { word_count := wc
      char_count := l.length
      sentence_count := sc
      avg_word_length := awl
      exclamation_count := exclamation_count_of l
      question_count := question_count_of l
      caps_words := cap
      ellipsis_count := ellipsis_count_of l
      emoticon_count := emoCount l
      positive_word_count := pw
      negative_word_count := nw
      formal_word_count := fw
      casual_word_count := cw
      contraction_count := ct
      positive_r := pr
      negative_r := nr
      formal_r := fr
      casual_r := cr
      contraction_r := ctr
      caps_r := capr
      exclamation_r := er }

/-- Checked formality scorer: the average-sentence-length division of
`_analyze_formality` goes through `qdiv?`. -/
def formality_scores? (fv : FeatureVector) : Option (ℚ × ℚ) :=
  if 0 < fv.word_count ∧ 0 < fv.sentence_count then do
    let asl ← qdiv? (fv.word_count : ℚ) (fv.sentence_count : ℚ)
    pure (if 15 < asl then ((formality_pre fv).1 + 0.4, (formality_pre fv).2)
          else if asl < 8 then ((formality_pre fv).1, (formality_pre fv).2 + 0.3)
          else formality_pre fv)
  else pure (formality_pre fv)

/-- Checked confidence estimator: both divisions of
`_calculate_confidence` go through `qdiv?`. -/
def calculate_confidence? (fv : FeatureVector) (s f : ℚ) : Option ℚ := do
  let lq ← qdiv? (fv.word_count : ℚ) 50
  let fq ← qdiv? (abs s + abs f) 2
  pure (min (max ((min lq 1) * 0.6 + fq * 0.4) 0.1) 1)

/-- Checked whole-text analysis: every division of the engine is
guarded; the result is `none` iff some division divided by zero. -/
def analyze_tone? (text : String) : Option ToneAnalysis :=
  if isBlank text.data then
    some { sentiment := .neutral, formality := .neutral, sentiment_score := 0,
           formality_score := 0, confidence := 0, features := none }
  else do
    let fv ← extract_features? text.data
    let s := sentiment_net fv
    let fc ← formality_scores? fv
    let f := fc.1 - fc.2
    let conf ← calculate_confidence? fv s f
    pure { sentiment := sentiment_label fv, formality := formality_label fv,
           sentiment_score := s, formality_score := f, confidence := conf,
           features := some fv }

/-- Effect of the exclamation step on the net score, as a function of
the difference `positive - negative` and the relevant features. -/
def excl_adj (ec : ℕ) (er : ℚ) (d : ℚ) : ℚ :=
  if 0 < ec then
    if 0 < d then d + er * 0.5
    else if d < 0 then d - er * 0.5
    else d
  else d

/-- Effect of the emoticon step on the net score. -/
def emo_adj (ec : ℕ) (d : ℚ) : ℚ := if 0 < ec then d + 0.2 else d

/-- Effect of the caps step on the net score. -/
def caps_adj (cr : ℚ) (d : ℚ) : ℚ :=
  if 0.1 < cr then (if 0 < d then d + 0.3 else d - 0.3) else d

/-- One entry of the batch response list built by the loop of
`analyze_tone_batch` in `server/routers/tone.py`. -/
structure BatchEntry where
  text : String
  sentiment : Sentiment
  formality : Formality
  sentiment_score : ℚ
  formality_score : ℚ
  confidence : ℚ
  skipped : Bool
  reason : Option String
  deriving DecidableEq

/-- The entry the loop body appends for one item: blank items get the
skip placeholder with reason "Empty text", other items get the result
of `analyze_tone`. -/
def batch_entry (t : String) : BatchEntry :=
  if isBlank t.data then
    { text := t, sentiment := .neutral, formality := .neutral,
      sentiment_score := 0, formality_score := 0, confidence := 0,
      skipped := true, reason := some "Empty text" }
  else
    let a := analyze_tone t
    { text := t, sentiment := a.sentiment, formality := a.formality,
      sentiment_score := a.sentiment_score, formality_score := a.formality_score,
      confidence := a.confidence, skipped := false, reason := none }

/-- The results list built by the batch loop, one entry per input item
in order (`for i, text in enumerate(request.texts): ... results.append(...)`). -/
def batch_results : List String → List BatchEntry
  | [] => []
  | t :: rest => batch_entry t :: batch_results rest

/-! Tokenizer lemmas. -/

theorem tokensBy_cons_neg (p : Char → Bool) (c : Char) (l : List Char)
    (h : p c = false) : tokensBy p (c :: l) = tokensBy p l := by
  simp [tokensBy, h]

theorem tokensBy_singleton (p : Char → Bool) (c : Char) (h : p c = true) :
    tokensBy p [c] = [[c]] := by
  simp [tokensBy, h, headIs, consTok]

theorem tokensBy_merge (p : Char → Bool) (c c2 : Char) (l : List Char)
    (t : List Char) (ts : List (List Char))
    (h1 : p c = true) (h2 : p c2 = true)
    (ht : tokensBy p (c2 :: l) = t :: ts) :
    tokensBy p (c :: c2 :: l) = (c :: t) :: ts := by
  have hcons : tokensBy p (c :: c2 :: l)
      = consTok c (headIs p (c2 :: l)) (tokensBy p (c2 :: l)) := by
    simp only [tokensBy, h1, if_true]
  rw [hcons, ht]
  simp [headIs, h2, consTok]

theorem tokensBy_new (p : Char → Bool) (c c2 : Char) (l : List Char)
    (h1 : p c = true) (h2 : p c2 = false) :
    tokensBy p (c :: c2 :: l) = [c] :: tokensBy p (c2 :: l) := by
  simp [tokensBy, h1, headIs, h2, consTok]

theorem tokensBy_cons_head (p : Char → Bool) (c : Char) (l : List Char)
    (h : p c = true) : ∃ t ts, tokensBy p (c :: l) = (c :: t) :: ts := by
  induction l generalizing c with
  | nil => exact ⟨[], [], tokensBy_singleton p c h⟩
  | cons c2 l2 ih =>
    by_cases h2 : p c2
    · obtain ⟨t, ts, ht⟩ := ih c2 h2
      exact ⟨c2 :: t, ts, tokensBy_merge p c c2 l2 _ _ h h2 ht⟩
    · exact ⟨[], tokensBy p (c2 :: l2),
        tokensBy_new p c c2 l2 h (by simpa using h2)⟩

theorem tokensBy_map (p : Char → Bool) (f : Char → Char)
    (hf : ∀ c, p (f c) = p c) :
    ∀ l : List Char, tokensBy p (l.map f) = (tokensBy p l).map (List.map f) := by
  intro l
  induction l with
  | nil => simp [tokensBy]
  | cons c rest ih =>
    by_cases hc : p c = true
    · have hfc : p (f c) = true := by rw [hf]; exact hc
      rcases rest with _ | ⟨c2, rest2⟩
      · simp [tokensBy_singleton p c hc, tokensBy_singleton p (f c) hfc]
      · by_cases hc2 : p c2 = true
        · have hfc2 : p (f c2) = true := by rw [hf]; exact hc2
          obtain ⟨t, ts, ht⟩ := tokensBy_cons_head p c2 rest2 hc2
          have ht2 : tokensBy p (f c2 :: rest2.map f)
              = (f c2 :: t.map f) :: ts.map (List.map f) := by
            have := ih
            rw [List.map_cons, ht] at this
            simpa using this
          rw [List.map_cons, List.map_cons,
            tokensBy_merge p (f c) (f c2) (rest2.map f) _ _ hfc hfc2 ht2,
            tokensBy_merge p c c2 rest2 _ _ hc hc2 ht]
          simp
        · have hc2f : p c2 = false := by simpa using hc2
          have hfc2 : p (f c2) = false := by rw [hf]; exact hc2f
          rw [List.map_cons, List.map_cons,
            tokensBy_new p (f c) (f c2) (rest2.map f) hfc hfc2,
            tokensBy_new p c c2 rest2 hc hc2f, List.map_cons]
          rw [← List.map_cons f c2 rest2]
          rw [ih]
          simp
    · have hcf : p c = false := by simpa using hc
      have hfc : p (f c) = false := by rw [hf]; exact hcf
      rw [List.map_cons, tokensBy_cons_neg p (f c) _ hfc,
        tokensBy_cons_neg p c rest hcf]
      exact ih

theorem countP_tokens_le (p q : Char → Bool)
    (hpq : ∀ c, p c = true → q c = true) :
    ∀ l : List Char,
      (tokensBy q l).countP (fun t => t.any p) ≤ (tokensBy p l).length := by
  intro l
  induction l with
  | nil => simp [tokensBy]
  | cons c rest ih =>
    by_cases hq : q c = true
    · rcases rest with _ | ⟨c2, rest2⟩
      · by_cases hp : p c = true
        · simp [tokensBy_singleton q c hq, tokensBy_singleton p c hp,
            List.countP_cons, hp]
        · have hpf : p c = false := by simpa using hp
          have hz : (tokensBy q [c]).countP (fun t => t.any p) = 0 := by
            rw [tokensBy_singleton q c hq]
            simp [List.countP_cons, hpf]
          rw [hz]
          exact Nat.zero_le _
      · by_cases hq2 : q c2 = true
        · obtain ⟨t, ts, ht⟩ := tokensBy_cons_head q c2 rest2 hq2
          rw [tokensBy_merge q c c2 rest2 (c2 :: t) ts hq hq2 ht]
          rw [ht] at ih
          by_cases hp : p c = true
          · by_cases hp2 : p c2 = true
            · obtain ⟨u, us, hu⟩ := tokensBy_cons_head p c2 rest2 hp2
              rw [tokensBy_merge p c c2 rest2 (c2 :: u) us hp hp2 hu]
              rw [hu] at ih
              simp only [List.countP_cons, List.any_cons, hp, hp2,
                Bool.true_or, if_true, List.length_cons] at ih ⊢
              omega
            · have hp2f : p c2 = false := by simpa using hp2
              rw [tokensBy_new p c c2 rest2 hp hp2f]
              have hA : ((c :: c2 :: t) :: ts).countP (fun t => t.any p)
                  = ts.countP (fun t => t.any p) + 1 := by
                simp [List.countP_cons, List.any_cons, hp]
              have hIH2 : ts.countP (fun t => t.any p)
                  ≤ ((c2 :: t) :: ts).countP (fun t => t.any p) := by
                simp only [List.countP_cons]
                omega
              simp only [List.length_cons]
              omega
          · have hpf : p c = false := by simpa using hp
            rw [tokensBy_cons_neg p c (c2 :: rest2) hpf]
            have hA : ((c :: c2 :: t) :: ts).countP (fun t => t.any p)
                = ((c2 :: t) :: ts).countP (fun t => t.any p) := by
              simp [List.countP_cons, List.any_cons, hpf]
            rw [hA]
            exact ih
        · have hq2f : q c2 = false := by simpa using hq2
          have hp2f : p c2 = false := by
            cases hpc : p c2
            · rfl
            · exact absurd (hpq c2 hpc) (by simp [hq2f])
          rw [tokensBy_new q c c2 rest2 hq hq2f]
          by_cases hp : p c = true
          · rw [tokensBy_new p c c2 rest2 hp hp2f]
            have hA : ([c] :: tokensBy q (c2 :: rest2)).countP (fun t => t.any p)
                = (tokensBy q (c2 :: rest2)).countP (fun t => t.any p) + 1 := by
              simp [List.countP_cons, hp]
            simp only [List.length_cons]
            omega
          · have hpf : p c = false := by simpa using hp
            rw [tokensBy_cons_neg p c (c2 :: rest2) hpf]
            have hA : ([c] :: tokensBy q (c2 :: rest2)).countP (fun t => t.any p)
                = (tokensBy q (c2 :: rest2)).countP (fun t => t.any p) := by
              simp [List.countP_cons, hpf]
            rw [hA]
            exact ih
    · have hqf : q c = false := by simpa using hq
      have hpf : p c = false := by
        cases hpc : p c
        · rfl
        · exact absurd (hpq c hpc) (by simp [hqf])
      rw [tokensBy_cons_neg q c rest hqf, tokensBy_cons_neg p c rest hpf]
      exact ih

/-! Character-class lemmas. -/

theorem wordChar_lowerChar (c : Char) : wordChar (lowerChar c) = wordChar c := by
  unfold lowerChar
  split <;> first | rfl | decide

theorem ws_not_wordChar (c : Char) (h : c.isWhitespace = true) :
    wordChar c = false := by
  simp only [Char.isWhitespace, Bool.or_eq_true, decide_eq_true_eq] at h
  have hc : c = ' ' ∨ c = '\t' ∨ c = '\x0d' ∨ c = '\n' := by tauto
  rcases hc with h1 | h1 | h1 | h1 <;> subst h1 <;> decide

theorem wordChar_notWS (c : Char) (h : wordChar c = true) : notWS c = true := by
  unfold notWS
  cases hw : c.isWhitespace
  · rfl
  · rw [ws_not_wordChar c hw] at h
    cases h

theorem lower_any_wordChar (t : List Char) :
    (t.map lowerChar).any wordChar = t.any wordChar := by
  simp [List.any_map, Function.comp_def, wordChar_lowerChar]

theorem contraction_any_wordChar (t : List Char)
    (h : is_contraction t = true) : t.any wordChar = true := by
  unfold is_contraction at h
  have hmem : (t.map lowerChar) ∈ contractions := by simpa using h
  have hany : ∀ e ∈ contractions, e.any wordChar = true := by decide
  have := hany _ hmem
  rwa [lower_any_wordChar] at this

theorem words_of_length (l : List Char) :
    (words_of l).length = (tokensBy wordChar l).length := by
  unfold words_of
  rw [tokensBy_map wordChar lowerChar wordChar_lowerChar l]
  simp

/-! Confidence clamp. -/

theorem calculate_confidence_bounds (fv : FeatureVector) (s f : ℚ) :
    0.1 ≤ calculate_confidence fv s f ∧ calculate_confidence fv s f ≤ 1 := by
  unfold calculate_confidence
  constructor
  · exact le_min (le_max_right _ _) (by norm_num)
  · exact min_le_right _ _

/-! Net-score characterization of the sentiment pipeline. -/

theorem excl_step_net (fv : FeatureVector) (pn : ℚ × ℚ) :
    (exclamation_step fv pn).1 - (exclamation_step fv pn).2
      = excl_adj fv.exclamation_count fv.exclamation_r (pn.1 - pn.2) := by
  unfold exclamation_step excl_adj
  split_ifs <;> (try dsimp only) <;> linarith

theorem emo_step_net (fv : FeatureVector) (pn : ℚ × ℚ) :
    (emoticon_step fv pn).1 - (emoticon_step fv pn).2
      = emo_adj fv.emoticon_count (pn.1 - pn.2) := by
  unfold emoticon_step emo_adj
  split_ifs <;> (try dsimp only) <;> linarith

theorem caps_step_net (fv : FeatureVector) (pn : ℚ × ℚ) :
    (caps_step fv pn).1 - (caps_step fv pn).2
      = caps_adj fv.caps_r (pn.1 - pn.2) := by
  unfold caps_step caps_adj
  split_ifs <;> (try dsimp only) <;> linarith

theorem sentiment_net_eq (fv : FeatureVector) :
    sentiment_net fv
      = caps_adj fv.caps_r (emo_adj fv.emoticon_count
          (excl_adj fv.exclamation_count fv.exclamation_r
            (fv.positive_r * 2 - fv.negative_r * 2))) := by
  unfold sentiment_net sentiment_scores
  rw [caps_step_net, emo_step_net, excl_step_net]
  dsimp only [sentiment_base]

theorem excl_adj_mono (ec : ℕ) (er : ℚ) (her : 0 ≤ er) (d1 d2 : ℚ)
    (h : d1 ≤ d2) : excl_adj ec er d1 ≤ excl_adj ec er d2 := by
  unfold excl_adj
  split_ifs <;> linarith

theorem emo_adj_mono (ec : ℕ) (d1 d2 : ℚ) (h : d1 ≤ d2) :
    emo_adj ec d1 ≤ emo_adj ec d2 := by
  unfold emo_adj
  split_ifs <;> linarith

theorem caps_adj_mono (cr : ℚ) (d1 d2 : ℚ) (h : d1 ≤ d2) :
    caps_adj cr d1 ≤ caps_adj cr d2 := by
  unfold caps_adj
  split_ifs <;> linarith

/-! Claim theorems. -/

/-- C8: `analyze` applied to "I'm really excited about this amazing
opportunity!" returns positive sentiment and confidence strictly above
0.3 (its exact confidence is 223/500 = 0.446). -/
theorem claim_C8 :
    (analyze_tone "I'm really excited about this amazing opportunity!").sentiment
        = Sentiment.positive
      ∧ (0.3 : ℚ)
        < (analyze_tone "I'm really excited about this amazing opportunity!").confidence := by
  constructor
  · decide
  · decide

/-- C4: for blank input, `analyze` returns exactly neutral sentiment,
neutral formality, zero scores, zero confidence and no feature map. -/
theorem claim_C4 (text : String) (h : isBlank text.data = true) :
    analyze_tone text
      = { sentiment := .neutral, formality := .neutral, sentiment_score := 0,
          formality_score := 0, confidence := 0, features := none } := by
  unfold analyze_tone
  rw [h]
  simp

theorem claim_C4_witness :
    isBlank (("  ").data) = true
      ∧ analyze_tone "  "
          = { sentiment := .neutral, formality := .neutral, sentiment_score := 0,
              formality_score := 0, confidence := 0, features := none } :=
  ⟨by decide, claim_C4 "  " (by decide)⟩

/-- C2: for every non-blank input the confidence is clamped into
[0.1, 1], and it equals 0 exactly on blank input. -/
theorem claim_C2 (text : String) :
    (isBlank text.data = false →
        0.1 ≤ (analyze_tone text).confidence
          ∧ (analyze_tone text).confidence ≤ 1)
      ∧ ((analyze_tone text).confidence = 0 ↔ isBlank text.data = true) := by
  cases hb : isBlank text.data
  · have hconf : (analyze_tone text).confidence
        = calculate_confidence (extract_features text.data)
            (sentiment_net (extract_features text.data))
            (formality_net (extract_features text.data)) := by
      unfold analyze_tone
      rw [hb]
      simp
    have hbd := calculate_confidence_bounds (extract_features text.data)
      (sentiment_net (extract_features text.data))
      (formality_net (extract_features text.data))
    refine ⟨fun _ => ?_, ?_, ?_⟩
    · rw [hconf]
      exact hbd
    · intro h0
      rw [hconf] at h0
      rw [h0] at hbd
      exact absurd hbd.1 (by norm_num)
    · intro h
      exact absurd h (by simp [hb])
  · have hconf : (analyze_tone text).confidence = 0 := by
      unfold analyze_tone
      rw [hb]
      simp
    exact ⟨fun hfalse => absurd hfalse (by decide), fun _ => rfl, fun _ => hconf⟩

theorem claim_C2_witness :
    isBlank (("hello").data) = false
      ∧ 0.1 ≤ (analyze_tone "hello").confidence
      ∧ (analyze_tone "hello").confidence ≤ 1 :=
  ⟨by decide, (claim_C2 "hello").1 (by decide)⟩

/-- C10: the lowercase of a token can never equal the capitalized
lexicon entries I'm / I've / I'd / I'll, so those contraction forms are
never detected (the membership test is `false` for every casing of
them), and e.g. the text "I'm I've I'd I'll" has zero contraction
count. -/
theorem claim_C10 :
    (∀ t : List Char,
        (t.map lowerChar = ("i'm").data ∨ t.map lowerChar = ("i've").data
          ∨ t.map lowerChar = ("i'd").data ∨ t.map lowerChar = ("i'll").data) →
        is_contraction t = false)
      ∧ (extract_features (("I'm I've I'd I'll").data)).contraction_count = 0 := by
  constructor
  · intro t h
    unfold is_contraction
    rcases h with h1 | h1 | h1 | h1 <;> rw [h1] <;> decide
  · decide

theorem claim_C10_witness :
    is_contraction (("I'm").data) = false :=
  claim_C10.1 (("I'm").data) (Or.inl (by decide))

/-- C3: whenever `caps_ratio > 0.1`, the caps step of the sentiment
scorer adds 0.3 to the positive running score when positive is strictly
greater than negative at that point, and otherwise — ties included —
adds 0.3 to the negative running score. -/
theorem claim_C3 (fv : FeatureVector) (h : 0.1 < fv.caps_r) :
    (sentiment_scores fv
        = (if (emoticon_step fv (exclamation_step fv (sentiment_base fv))).2
              < (emoticon_step fv (exclamation_step fv (sentiment_base fv))).1
            then ((emoticon_step fv (exclamation_step fv (sentiment_base fv))).1 + 0.3,
                  (emoticon_step fv (exclamation_step fv (sentiment_base fv))).2)
            else ((emoticon_step fv (exclamation_step fv (sentiment_base fv))).1,
                  (emoticon_step fv (exclamation_step fv (sentiment_base fv))).2 + 0.3)))
      ∧ ((emoticon_step fv (exclamation_step fv (sentiment_base fv))).1
            = (emoticon_step fv (exclamation_step fv (sentiment_base fv))).2 →
          sentiment_scores fv
            = ((emoticon_step fv (exclamation_step fv (sentiment_base fv))).1,
               (emoticon_step fv (exclamation_step fv (sentiment_base fv))).2 + 0.3)) := by
  unfold sentiment_scores caps_step
  rw [if_pos h]
  constructor
  · rfl
  · intro he
    rw [if_neg]
    rw [he]
    exact lt_irrefl _

theorem claim_C3_witness :
    0.1 < (extract_features (("AB CD").data)).caps_r
      ∧ sentiment_scores (extract_features (("AB CD").data)) = (0, 0.3) := by
  refine ⟨by decide, ?_⟩
  have h := (claim_C3 (extract_features (("AB CD").data)) (by decide)).2 (by decide)
  exact h.trans (by decide)

/-- C1 as stated is false on the source: for the punctuation-only text
"@#$" the sentence count is 1 > 0 and the word count is 0, so the claim
would apply the adjustment (average 0 < 8, casual + 0.3, total 0.6),
but the scorer's guard `word_count > 0 and sentence_count > 0` skips
it, leaving the casual score at 0.3. -/
theorem claim_C1_counterexample :
    0 < (extract_features (("@#$").data)).sentence_count
      ∧ (extract_features (("@#$").data)).word_count = 0
      ∧ formality_scores (extract_features (("@#$").data)) = (0, 0.3)
      ∧ sentence_length_step_claim (extract_features (("@#$").data))
          (formality_pre (extract_features (("@#$").data))) = (0, 0.6) :=
  ⟨by decide, by decide, by decide, by decide⟩

/-- C1 (amended): the sentence-length adjustment runs exactly when both
`word_count > 0` and `sentence_count > 0`; it then adds 0.4 to the
formal score when `word_count / sentence_count > 15` and otherwise adds
0.3 to the casual score when that average is `< 8`; when `word_count`
or `sentence_count` is zero (e.g. punctuation-only text) the adjustment
is skipped. -/
theorem claim_C1 (fv : FeatureVector) (fc : ℚ × ℚ) :
    (formality_scores fv = sentence_length_step fv (formality_pre fv))
      ∧ (0 < fv.word_count → 0 < fv.sentence_count →
          sentence_length_step fv fc
            = (if 15 < (fv.word_count : ℚ) / (fv.sentence_count : ℚ)
                then (fc.1 + 0.4, fc.2)
                else if (fv.word_count : ℚ) / (fv.sentence_count : ℚ) < 8
                  then (fc.1, fc.2 + 0.3)
                  else fc))
      ∧ (fv.word_count = 0 ∨ fv.sentence_count = 0 →
          sentence_length_step fv fc = fc) := by
  refine ⟨rfl, fun h1 h2 => ?_, fun h0 => ?_⟩
  · unfold sentence_length_step
    rw [if_pos ⟨h1, h2⟩]
  · unfold sentence_length_step
    have hng : ¬ (0 < fv.word_count ∧ 0 < fv.sentence_count) := by
      rcases h0 with h | h <;> omega
    rw [if_neg hng]

theorem claim_C1_witness :
    sentence_length_step (extract_features (("great job").data)) (0, 0)
      = (0, 0.3) := by
  have h := (claim_C1 (extract_features (("great job").data)) (0, 0)).2.1
    (by decide) (by decide)
  exact h.trans (by decide)

/-- C7: the batch loop builds one entry per input item in order; blank
items become skip entries with reason "Empty text" and the neutral zero
placeholder, non-blank items get the `analyze` result, and a blank item
never prevents the remaining items from being processed (the loop is a
per-item map). -/
theorem claim_C7 (texts : List String) (h : texts.length ≤ 10) :
    (batch_results texts = texts.map batch_entry)
      ∧ (∀ t : String, isBlank t.data = true →
          batch_entry t
            = { text := t, sentiment := .neutral, formality := .neutral,
                sentiment_score := 0, formality_score := 0, confidence := 0,
                skipped := true, reason := some "Empty text" })
      ∧ (∀ t : String, isBlank t.data = false →
          batch_entry t
            = { text := t, sentiment := (analyze_tone t).sentiment,
                formality := (analyze_tone t).formality,
                sentiment_score := (analyze_tone t).sentiment_score,
                formality_score := (analyze_tone t).formality_score,
                confidence := (analyze_tone t).confidence,
                skipped := false, reason := none }) := by
  clear h
  refine ⟨?_, fun t ht => ?_, fun t ht => ?_⟩
  · induction texts with
    | nil => rfl
    | cons a l ih => simp [batch_results, ih]
  · unfold batch_entry
    rw [ht]
    simp
  · unfold batch_entry
    rw [ht]
    simp

theorem claim_C7_witness :
    List.length ["", "great job"] ≤ 10
      ∧ batch_results ["", "great job"]
          = [{ text := "", sentiment := .neutral, formality := .neutral,
               sentiment_score := 0, formality_score := 0, confidence := 0,
               skipped := true, reason := some "Empty text" },
             { text := "great job", sentiment := .positive,
               formality := .neutral, sentiment_score := 1,
               formality_score := -0.3, confidence := 0.284,
               skipped := false, reason := none }] := by
  refine ⟨by decide, ?_⟩
  have h := (claim_C7 ["", "great job"] (by decide)).1
  exact h.trans (by decide)

theorem qdiv?_pos (a b : ℚ) (h : b ≠ 0) : qdiv? a b = some (a / b) := by
  unfold qdiv?
  rw [if_neg h]

theorem cast_max_one_ne (n : ℕ) : ((max n 1 : ℕ) : ℚ) ≠ 0 := by
  rw [Nat.cast_ne_zero]
  omega

theorem cast_max_one_ne2 (n : ℕ) : ((n : ℚ) ⊔ 1) ≠ 0 := by
  have h1 : (1:ℚ) ≤ (n : ℚ) ⊔ 1 := le_max_right _ _
  intro h
  rw [h] at h1
  norm_num at h1

theorem extract_features?_eq (l : List Char) :
    extract_features? l = some (extract_features l) := by
  unfold extract_features? extract_features
  simp [qdiv?, cast_max_one_ne, cast_max_one_ne2]

theorem formality_scores?_eq (fv : FeatureVector) :
    formality_scores? fv = some (formality_scores fv) := by
  unfold formality_scores? formality_scores sentence_length_step
  by_cases h : 0 < fv.word_count ∧ 0 < fv.sentence_count
  · rw [if_pos h, if_pos h]
    have hs : ((fv.sentence_count : ℕ) : ℚ) ≠ 0 := by
      rw [Nat.cast_ne_zero]
      omega
    rw [qdiv?_pos _ _ hs]
    rfl
  · rw [if_neg h, if_neg h]
    rfl

theorem calculate_confidence?_eq (fv : FeatureVector) (s f : ℚ) :
    calculate_confidence? fv s f = some (calculate_confidence fv s f) := by
  unfold calculate_confidence? calculate_confidence
  rw [qdiv?_pos _ _ (by norm_num), qdiv?_pos _ _ (by norm_num)]
  rfl

/-- C9: the engine is a total function of the input string — the
variant in which every division is guarded always succeeds and agrees
with `analyze_tone` (so no division by zero is reachable in feature
extraction, the scorers, or the confidence computation), and the
returned result is valid: its confidence lies in [0, 1]. -/
theorem claim_C9 (text : String) :
    analyze_tone? text = some (analyze_tone text)
      ∧ 0 ≤ (analyze_tone text).confidence
      ∧ (analyze_tone text).confidence ≤ 1 := by
  cases hb : isBlank text.data
  · have hbd := calculate_confidence_bounds (extract_features text.data)
      (sentiment_net (extract_features text.data))
      (formality_net (extract_features text.data))
    have hgoal : analyze_tone? text = some (analyze_tone text) := by
      unfold analyze_tone? analyze_tone
      rw [hb]
      simp only [Bool.false_eq_true, if_false]
      rw [extract_features?_eq]
      simp only [Option.bind_eq_bind, Option.some_bind]
      rw [formality_scores?_eq]
      simp only [Option.bind_eq_bind, Option.some_bind]
      rw [calculate_confidence?_eq]
      simp only [Option.bind_eq_bind, Option.some_bind]
      rfl
    have hconf : (analyze_tone text).confidence
        = calculate_confidence (extract_features text.data)
            (sentiment_net (extract_features text.data))
            (formality_net (extract_features text.data)) := by
      unfold analyze_tone
      rw [hb]
      simp
    refine ⟨hgoal, ?_, ?_⟩
    · rw [hconf]
      linarith [hbd.1]
    · rw [hconf]
      exact hbd.2
  · have hconf : (analyze_tone text).confidence = 0 := by
      unfold analyze_tone
      rw [hb]
      rfl
    refine ⟨?_, by rw [hconf], by rw [hconf]; norm_num⟩
    unfold analyze_tone? analyze_tone
    rw [hb]
    rfl

/-- C5: for two feature vectors identical except that the second has a
larger positive word count (and hence a larger positive quotient, all
other fields fixed), the final net sentiment score of the second is at
least that of the first.  The extracted exclamation quotient is always
non-negative, which is recorded as a hypothesis. -/
theorem claim_C5 (fv1 fv2 : FeatureVector)
    (hshape : fv2 = { fv1 with positive_word_count := fv2.positive_word_count,
                               positive_r := fv2.positive_r })
    (hcount : fv1.positive_word_count ≤ fv2.positive_word_count)
    (hr : fv1.positive_r ≤ fv2.positive_r)
    (her : 0 ≤ fv1.exclamation_r) :
    sentiment_net fv1 ≤ sentiment_net fv2 := by
  have hneg : fv2.negative_r = fv1.negative_r := by rw [hshape]
  have hec : fv2.exclamation_count = fv1.exclamation_count := by rw [hshape]
  have her2 : fv2.exclamation_r = fv1.exclamation_r := by rw [hshape]
  have hemo : fv2.emoticon_count = fv1.emoticon_count := by rw [hshape]
  have hcaps : fv2.caps_r = fv1.caps_r := by rw [hshape]
  rw [sentiment_net_eq, sentiment_net_eq, hneg, hec, her2, hemo, hcaps]
  exact caps_adj_mono _ _ _
    (emo_adj_mono _ _ _ (excl_adj_mono _ _ her _ _ (by linarith)))

theorem claim_C5_witness :
    sentiment_net (extract_features (("x").data))
      ≤ sentiment_net { extract_features (("x").data) with
          positive_word_count := 5, positive_r := 1 } :=
  claim_C5 _ _ rfl (by decide) (by decide) (by decide)

theorem ratio_bounds (count wc : ℕ) (h : count ≤ wc) :
    0 ≤ (count : ℚ) / ((max wc 1 : ℕ) : ℚ)
      ∧ (count : ℚ) / ((max wc 1 : ℕ) : ℚ) ≤ 1 := by
  have hpos : (0:ℚ) < ((max wc 1 : ℕ) : ℚ) := by
    have : 0 < max wc 1 := by omega
    exact_mod_cast this
  constructor
  · positivity
  · rw [div_le_one hpos]
    have hle : count ≤ max wc 1 := le_trans h (le_max_left _ _)
    exact_mod_cast hle

/-- C6: every lexical/caps/contraction quotient of the extracted
feature vector lies in [0, 1]; every quotient is literally a count
divided by its denominator floored at one (so no division by zero can
occur); and only the exclamation quotient can exceed one, as the text
"a! ! !" (three exclamation runs, one sentence) witnesses. -/
theorem claim_C6 (text : String) :
    (0 ≤ (extract_features text.data).positive_r
        ∧ (extract_features text.data).positive_r ≤ 1)
      ∧ (0 ≤ (extract_features text.data).negative_r
          ∧ (extract_features text.data).negative_r ≤ 1)
      ∧ (0 ≤ (extract_features text.data).formal_r
          ∧ (extract_features text.data).formal_r ≤ 1)
      ∧ (0 ≤ (extract_features text.data).casual_r
          ∧ (extract_features text.data).casual_r ≤ 1)
      ∧ (0 ≤ (extract_features text.data).contraction_r
          ∧ (extract_features text.data).contraction_r ≤ 1)
      ∧ (0 ≤ (extract_features text.data).caps_r
          ∧ (extract_features text.data).caps_r ≤ 1)
      ∧ (extract_features text.data).positive_r
          = ((extract_features text.data).positive_word_count : ℚ)
            / ((max (extract_features text.data).word_count 1 : ℕ) : ℚ)
      ∧ (extract_features text.data).negative_r
          = ((extract_features text.data).negative_word_count : ℚ)
            / ((max (extract_features text.data).word_count 1 : ℕ) : ℚ)
      ∧ (extract_features text.data).formal_r
          = ((extract_features text.data).formal_word_count : ℚ)
            / ((max (extract_features text.data).word_count 1 : ℕ) : ℚ)
      ∧ (extract_features text.data).casual_r
          = ((extract_features text.data).casual_word_count : ℚ)
            / ((max (extract_features text.data).word_count 1 : ℕ) : ℚ)
      ∧ (extract_features text.data).contraction_r
          = ((extract_features text.data).contraction_count : ℚ)
            / ((max (extract_features text.data).word_count 1 : ℕ) : ℚ)
      ∧ (extract_features text.data).caps_r
          = ((extract_features text.data).caps_words : ℚ)
            / ((max (extract_features text.data).word_count 1 : ℕ) : ℚ)
      ∧ (extract_features text.data).exclamation_r
          = ((extract_features text.data).exclamation_count : ℚ)
            / ((max (extract_features text.data).sentence_count 1 : ℕ) : ℚ)
      ∧ (extract_features text.data).avg_word_length
          = (((words_of text.data).map List.length).sum : ℚ)
            / ((max (extract_features text.data).word_count 1 : ℕ) : ℚ)
      ∧ 1 < (extract_features (("a! ! !").data)).exclamation_r := by
  have hcapsle : caps_words_of text.data ≤ (words_of text.data).length := by
    rw [words_of_length]
    exact List.countP_le_length _
  have hctrle : contraction_count_of text.data
      ≤ (words_of text.data).length := by
    rw [words_of_length]
    calc (tokensBy notWS text.data).countP is_contraction
        ≤ (tokensBy notWS text.data).countP (fun t => t.any wordChar) :=
          List.countP_mono_left (fun t _ ht => contraction_any_wordChar t ht)
      _ ≤ (tokensBy wordChar text.data).length :=
          countP_tokens_le wordChar notWS wordChar_notWS text.data
  refine ⟨?_, ?_, ?_, ?_, ?_, ?_,
    rfl, rfl, rfl, rfl, rfl, rfl, rfl, rfl, by decide⟩
  · exact ratio_bounds _ _ (List.countP_le_length _)
  · exact ratio_bounds _ _ (List.countP_le_length _)
  · exact ratio_bounds _ _ (List.countP_le_length _)
  · exact ratio_bounds _ _ (List.countP_le_length _)
  · exact ratio_bounds _ _ hctrle
  · exact ratio_bounds _ _ hcapsle

end Tone

